import Mathlib

/-!
Verification development for the CSpiceBridge session bridge
(src/host/Sources/CSpiceBridge/CSpiceBridge.c).

The embedding below is a shallow model of the bridge's observable behavior.
Pointers that may be null are modelled as `Option`; calls into the external
protocol-client library (spice channel primitives) are modelled as values of
the `Emission` type collected in the order the C code performs them; the
Stream struct is modelled by `StreamState`, keeping exactly the fields the
public send/set operations and signal handlers read or write.  Concurrency in
the C code is serialized by the Stream's single mutex, so each public
operation and signal handler is modelled as an atomic state transition and a
trace of serialized calls is a list of such transitions.

C `double` fields (mouse coordinates, scroll deltas) are truncated by `(int)`
casts at the top of the C handlers before any use; the embedding therefore
takes the already-truncated `Int` values.  The `uint64_t` clipboard sequence
counter is modelled as `Nat` reduced `% 2 ^ 64` where the C code increments.
The `int` button-state bitmask is modelled as `Nat`; the C update
`state &= ~mask` is `state &&& not32 mask` (32-bit complement), which agrees
with two's-complement C on all reachable values (masks are below 2 ^ 5).
-/

namespace CSpiceBridge

/-! Protocol constants.  Values are those of the external protocol headers
(spice-protocol / vd_agent), which the C file uses through its shim; the
claims depend only on which constants are distinct and which are image
types, as documented next to each use. -/

def SPICE_MOUSE_BUTTON_LEFT : Nat := 1

def SPICE_MOUSE_BUTTON_MIDDLE : Nat := 2

def SPICE_MOUSE_BUTTON_RIGHT : Nat := 3

def SPICE_MOUSE_BUTTON_UP : Nat := 4

def SPICE_MOUSE_BUTTON_DOWN : Nat := 5

def SPICE_MOUSE_BUTTON_MASK_LEFT : Nat := 1

def SPICE_MOUSE_BUTTON_MASK_MIDDLE : Nat := 2

def SPICE_MOUSE_BUTTON_MASK_RIGHT : Nat := 4

def SPICE_MOUSE_BUTTON_MASK_UP : Nat := 8

def SPICE_MOUSE_BUTTON_MASK_DOWN : Nat := 16

def VD_AGENT_CLIPBOARD_NONE : Nat := 0

def VD_AGENT_CLIPBOARD_UTF8_TEXT : Nat := 1

def VD_AGENT_CLIPBOARD_IMAGE_PNG : Nat := 2

def VD_AGENT_CLIPBOARD_IMAGE_BMP : Nat := 3

def VD_AGENT_CLIPBOARD_IMAGE_TIFF : Nat := 4

def VD_AGENT_CLIPBOARD_IMAGE_JPG : Nat := 5

def VD_AGENT_CLIPBOARD_SELECTION_CLIPBOARD : Nat := 0

/-! Enum values from include/CSpiceBridge.h.  Event-type fields are kept as
`Nat` because the C switch statements have default cases reachable with
out-of-enum values. -/

def WINRUN_MOUSE_EVENT_MOVE : Nat := 0

def WINRUN_MOUSE_EVENT_PRESS : Nat := 1

def WINRUN_MOUSE_EVENT_RELEASE : Nat := 2

def WINRUN_MOUSE_EVENT_SCROLL : Nat := 3

def WINRUN_MOUSE_BUTTON_LEFT : Nat := 1

def WINRUN_MOUSE_BUTTON_RIGHT : Nat := 2

def WINRUN_MOUSE_BUTTON_MIDDLE : Nat := 4

def WINRUN_MOUSE_BUTTON_EXTRA1 : Nat := 5

def WINRUN_MOUSE_BUTTON_EXTRA2 : Nat := 6

def WINRUN_KEY_EVENT_DOWN : Nat := 0

def WINRUN_KEY_EVENT_UP : Nat := 1

def WINRUN_CLIPBOARD_FORMAT_TEXT : Nat := 0

def WINRUN_CLIPBOARD_FORMAT_RTF : Nat := 1

def WINRUN_CLIPBOARD_FORMAT_HTML : Nat := 2

def WINRUN_CLIPBOARD_FORMAT_PNG : Nat := 3

def WINRUN_CLIPBOARD_FORMAT_TIFF : Nat := 4

def WINRUN_CLIPBOARD_FORMAT_FILE_URL : Nat := 5

def WINRUN_DRAG_EVENT_DROP : Nat := 3

def WINRUN_SPICE_CLOSE_REASON_REMOTE : Nat := 0

/-- A call into the external protocol-client library, recorded in the order
the C code performs it. -/
inductive Emission where
  | position (x y : Int) (display : Nat) (buttonState : Nat)
  | buttonPress (button : Nat) (buttonState : Nat)
  | buttonRelease (button : Nat) (buttonState : Nat)
  | keyPress (scancode : Nat)
  | keyRelease (scancode : Nat)
  | clipboardGrab (selection : Nat) (types : List Nat)
  | clipboardNotify (selection : Nat) (ty : Nat) (data : List Nat) (size : Nat)
  | clipboardRequest (selection : Nat) (ty : Nat)
  deriving DecidableEq, Repr

/-- The mutable Stream fields read or written by the send/set operations and
signal handlers of CSpiceBridge.c: whether the inputs channel and the main
channel have been bound by on_channel_new, the tracked button-state bitmask,
the clipboard sequence counter, and whether a clipboard callback is
registered (the callback/user-data pair itself carries no behavior in the
model beyond presence). -/
structure StreamState where
  inputs_bound : Bool
  main_bound : Bool
  button_state : Nat
  clipboard_sequence : Nat
  clipboard_cb_set : Bool
  deriving DecidableEq, Repr

/-- Stream as initialized by winrun_spice_stream_create: no channels bound,
button_state = 0, clipboard_sequence = 0, no clipboard callback. -/
def freshStream : StreamState :=
  { inputs_bound := false, main_bound := false, button_state := 0,
    clipboard_sequence := 0, clipboard_cb_set := false }

/-- on_channel_new, inputs-channel arm: binds (or rebinds) the inputs
channel. -/
def bindInputs (st : StreamState) : StreamState := { st with inputs_bound := true }

/-- on_channel_new, main-channel arm: binds (or rebinds) the main channel
and its clipboard signal handlers. -/
def bindMain (st : StreamState) : StreamState := { st with main_bound := true }

/-- winrun_button_to_spice from CSpiceBridge.c. -/
def winrun_button_to_spice (button : Nat) : Nat :=
  if button = WINRUN_MOUSE_BUTTON_LEFT then SPICE_MOUSE_BUTTON_LEFT
  else if button = WINRUN_MOUSE_BUTTON_RIGHT then SPICE_MOUSE_BUTTON_RIGHT
  else if button = WINRUN_MOUSE_BUTTON_MIDDLE then SPICE_MOUSE_BUTTON_MIDDLE
  else if button = WINRUN_MOUSE_BUTTON_EXTRA1 then SPICE_MOUSE_BUTTON_UP
  else if button = WINRUN_MOUSE_BUTTON_EXTRA2 then SPICE_MOUSE_BUTTON_DOWN
  else 0

/-- winrun_button_to_mask from CSpiceBridge.c. -/
def winrun_button_to_mask (button : Nat) : Nat :=
  if button = WINRUN_MOUSE_BUTTON_LEFT then SPICE_MOUSE_BUTTON_MASK_LEFT
  else if button = WINRUN_MOUSE_BUTTON_RIGHT then SPICE_MOUSE_BUTTON_MASK_RIGHT
  else if button = WINRUN_MOUSE_BUTTON_MIDDLE then SPICE_MOUSE_BUTTON_MASK_MIDDLE
  else if button = WINRUN_MOUSE_BUTTON_EXTRA1 then SPICE_MOUSE_BUTTON_MASK_UP
  else if button = WINRUN_MOUSE_BUTTON_EXTRA2 then SPICE_MOUSE_BUTTON_MASK_DOWN
  else 0

/-- 32-bit complement, used for the C update `button_state &= ~mask`. -/
def not32 (m : Nat) : Nat := (2 ^ 32 - 1) ^^^ m

/-- A mouse event (winrun_mouse_event).  The C handler truncates the double
coordinates and scroll deltas with `(int)` casts before use; the model takes
the truncated integers. -/
structure MouseEvent where
  event_type : Nat
  button : Nat
  x : Int
  y : Int
  scroll_delta_x : Int
  scroll_delta_y : Int
  deriving DecidableEq, Repr

/-- The scroll-emulation emissions of the SCROLL arm of
winrun_spice_send_mouse_event: one press+release pair of the synthetic
scroll button per unit of (truncated) vertical delta. -/
def scrollEmissions (scroll_y : Int) (buttonState : Nat) : List Emission :=
  if 0 < scroll_y then
    (List.replicate scroll_y.toNat
      [Emission.buttonPress SPICE_MOUSE_BUTTON_UP buttonState,
       Emission.buttonRelease SPICE_MOUSE_BUTTON_UP buttonState]).flatten
  else if scroll_y < 0 then
    (List.replicate (-scroll_y).toNat
      [Emission.buttonPress SPICE_MOUSE_BUTTON_DOWN buttonState,
       Emission.buttonRelease SPICE_MOUSE_BUTTON_DOWN buttonState]).flatten
  else []

/-- Body of winrun_spice_send_mouse_event after the null checks, on a
non-null stream and event: returns the updated Stream fields, the channel
calls performed, and the C return value. -/
def send_mouse_core (st : StreamState) (ev : MouseEvent) :
    StreamState × List Emission × Bool :=
  if st.inputs_bound = false then (st, [], false)
  else if ev.event_type = WINRUN_MOUSE_EVENT_MOVE then
    (st, [Emission.position ev.x ev.y 0 st.button_state], true)
  else if ev.event_type = WINRUN_MOUSE_EVENT_PRESS then
    let mask := winrun_button_to_mask ev.button
    let newState := st.button_state ||| mask
    ({ st with button_state := newState },
     [Emission.position ev.x ev.y 0 newState,
      Emission.buttonPress (winrun_button_to_spice ev.button) newState], true)
  else if ev.event_type = WINRUN_MOUSE_EVENT_RELEASE then
    let mask := winrun_button_to_mask ev.button
    ({ st with button_state := st.button_state &&& not32 mask },
     [Emission.position ev.x ev.y 0 st.button_state,
      Emission.buttonRelease (winrun_button_to_spice ev.button) st.button_state], true)
  else if ev.event_type = WINRUN_MOUSE_EVENT_SCROLL then
    (st, scrollEmissions ev.scroll_delta_y st.button_state, true)
  else (st, [], false)

/-- winrun_spice_send_mouse_event, including the null-pointer guards. -/
def winrun_spice_send_mouse_event (stream : Option StreamState)
    (event : Option MouseEvent) : Option StreamState × List Emission × Bool :=
  match stream, event with
  | none, _ => (none, [], false)
  | some st, none => (some st, [], false)
  | some st, some ev =>
    let r := send_mouse_core st ev
    (some r.1, r.2.1, r.2.2)

/-- Sequential processing of mouse events on one Stream (successive
winrun_spice_send_mouse_event calls, serialized by the mutex), tracking the
Stream fields. -/
def runMouse (st : StreamState) (evs : List MouseEvent) : StreamState :=
  evs.foldl (fun s e => (send_mouse_core s e).1) st

/-- A keyboard event (winrun_keyboard_event); key_code and scan_code are
uint32 values. -/
structure KeyboardEvent where
  event_type : Nat
  key_code : Nat
  scan_code : Nat
  is_extended_key : Bool
  deriving DecidableEq, Repr

/-- The scan code winrun_spice_send_keyboard_event transmits: the hardware
scan code when non-zero, else the virtual key code, with bit 8 ORed in
(`scancode |= 0x100`) when the event marks an extended key. -/
def keyScancode (ev : KeyboardEvent) : Nat :=
  let base := if ev.scan_code ≠ 0 then ev.scan_code else ev.key_code
  if ev.is_extended_key then base ||| 0x100 else base

/-- Body of winrun_spice_send_keyboard_event after the null checks. -/
def send_key_core (st : StreamState) (ev : KeyboardEvent) :
    StreamState × List Emission × Bool :=
  if st.inputs_bound = false then (st, [], false)
  else if ev.event_type = WINRUN_KEY_EVENT_DOWN then
    (st, [Emission.keyPress (keyScancode ev)], true)
  else if ev.event_type = WINRUN_KEY_EVENT_UP then
    (st, [Emission.keyRelease (keyScancode ev)], true)
  else (st, [], false)

/-- winrun_spice_send_keyboard_event, including the null-pointer guards. -/
def winrun_spice_send_keyboard_event (stream : Option StreamState)
    (event : Option KeyboardEvent) : Option StreamState × List Emission × Bool :=
  match stream, event with
  | none, _ => (none, [], false)
  | some st, none => (some st, [], false)
  | some st, some ev =>
    let r := send_key_core st ev
    (some r.1, r.2.1, r.2.2)

/-- winrun_format_to_spice from CSpiceBridge.c. -/
def winrun_format_to_spice (format : Nat) : Nat :=
  if format = WINRUN_CLIPBOARD_FORMAT_TEXT then VD_AGENT_CLIPBOARD_UTF8_TEXT
  else if format = WINRUN_CLIPBOARD_FORMAT_RTF then VD_AGENT_CLIPBOARD_UTF8_TEXT
  else if format = WINRUN_CLIPBOARD_FORMAT_HTML then VD_AGENT_CLIPBOARD_UTF8_TEXT
  else if format = WINRUN_CLIPBOARD_FORMAT_PNG then VD_AGENT_CLIPBOARD_IMAGE_PNG
  else if format = WINRUN_CLIPBOARD_FORMAT_TIFF then VD_AGENT_CLIPBOARD_IMAGE_BMP
  else if format = WINRUN_CLIPBOARD_FORMAT_FILE_URL then VD_AGENT_CLIPBOARD_UTF8_TEXT
  else VD_AGENT_CLIPBOARD_UTF8_TEXT

/-- spice_to_winrun_format from CSpiceBridge.c. -/
def spice_to_winrun_format (spice_type : Nat) : Nat :=
  if spice_type = VD_AGENT_CLIPBOARD_UTF8_TEXT then WINRUN_CLIPBOARD_FORMAT_TEXT
  else if spice_type = VD_AGENT_CLIPBOARD_IMAGE_PNG then WINRUN_CLIPBOARD_FORMAT_PNG
  else if spice_type = VD_AGENT_CLIPBOARD_IMAGE_BMP then WINRUN_CLIPBOARD_FORMAT_PNG
  else WINRUN_CLIPBOARD_FORMAT_TEXT

/-- winrun_clipboard_data; the data pointer may be null. -/
structure ClipboardData where
  format : Nat
  data : Option (List Nat)
  data_length : Nat
  deriving DecidableEq, Repr

/-- Body of winrun_spice_send_clipboard on a non-null stream and clipboard
struct: rejects a null data pointer or unbound main channel, otherwise
grabs the selection with exactly the one mapped type and then notifies with
the caller's bytes in that type. -/
def send_clipboard_core (st : StreamState) (clipboard : ClipboardData) :
    StreamState × List Emission × Bool :=
  match clipboard.data with
  | none => (st, [], false)
  | some d =>
    if st.main_bound = false then (st, [], false)
    else
      let ty := winrun_format_to_spice clipboard.format
      (st, [Emission.clipboardGrab VD_AGENT_CLIPBOARD_SELECTION_CLIPBOARD [ty],
            Emission.clipboardNotify VD_AGENT_CLIPBOARD_SELECTION_CLIPBOARD ty d
              clipboard.data_length], true)

/-- winrun_spice_send_clipboard, including the null-pointer guards. -/
def winrun_spice_send_clipboard (stream : Option StreamState)
    (clipboard : Option ClipboardData) : Option StreamState × List Emission × Bool :=
  match stream, clipboard with
  | none, _ => (none, [], false)
  | some st, none => (some st, [], false)
  | some st, some c =>
    let r := send_clipboard_core st c
    (some r.1, r.2.1, r.2.2)

/-- winrun_spice_set_clipboard_callback: stores (or clears) the clipboard
callback/user-data pair under the mutex; a no-op on a null stream. -/
def winrun_spice_set_clipboard_callback (stream : Option StreamState)
    (cb_present : Bool) : Option StreamState :=
  match stream with
  | none => none
  | some st => some { st with clipboard_cb_set := cb_present }

/-- The argument record handed to a registered clipboard callback by
on_clipboard_data. -/
structure ClipboardDelivery where
  format : Nat
  data : List Nat
  data_length : Nat
  sequence_number : Nat
  deriving DecidableEq, Repr

/-- Body of on_clipboard_data on a non-null stream: rejects a null data
pointer or zero size, otherwise increments the uint64 sequence counter under
the mutex and, when a clipboard callback is registered, invokes it (outside
the mutex) with the mapped format, the bytes, and the new sequence number. -/
def on_clipboard_data_core (st : StreamState) (ty : Nat)
    (data : Option (List Nat)) (size : Nat) :
    StreamState × Option ClipboardDelivery :=
  match data with
  | none => (st, none)
  | some d =>
    if size = 0 then (st, none)
    else
      let seq := (st.clipboard_sequence + 1) % 2 ^ 64
      let st1 := { st with clipboard_sequence := seq }
      if st.clipboard_cb_set then
        (st1, some { format := spice_to_winrun_format ty, data := d,
                     data_length := size, sequence_number := seq })
      else (st1, none)

/-- on_clipboard_data, including the null-stream guard. -/
def on_clipboard_data (stream : Option StreamState) (ty : Nat)
    (data : Option (List Nat)) (size : Nat) :
    Option StreamState × Option ClipboardDelivery :=
  match stream with
  | none => (none, none)
  | some st =>
    let r := on_clipboard_data_core st ty data size
    (some r.1, r.2)

/-- Successive guest-data deliveries (ty, bytes, size) on one Stream,
serialized by the mutex; returns the final Stream fields and the sequence
number the counter took after each delivery. -/
def runDeliveries (st : StreamState) :
    List (Nat × List Nat × Nat) → StreamState × List Nat
  | [] => (st, [])
  | (ty, d, size) :: rest =>
    let st1 := (on_clipboard_data_core st ty (some d) size).1
    let r := runDeliveries st1 rest
    (r.1, st1.clipboard_sequence :: r.2)

/-- The scan of on_clipboard_grab over the advertised types, carrying the
current preferred type (initially types[0]): an exact UTF8-text type wins
immediately, a PNG image type replaces the preferred type while the scan
continues. -/
def grabScan (preferred : Nat) : List Nat → Nat
  | [] => preferred
  | t :: rest =>
    if t = VD_AGENT_CLIPBOARD_UTF8_TEXT then t
    else if t = VD_AGENT_CLIPBOARD_IMAGE_PNG then grabScan t rest
    else grabScan preferred rest

/-- The type on_clipboard_grab selects from a non-empty advertised list. -/
def codeSelectType (types : List Nat) : Nat := grabScan (types.headD 0) types

/-- on_clipboard_grab: on a non-null stream and non-empty type list,
selects a type and, when the main channel is bound, requests that type's
data from the guest (the returned emission); otherwise does nothing. -/
def on_clipboard_grab (stream : Option StreamState) (selection : Nat)
    (types : Option (List Nat)) : Option Emission :=
  match stream, types with
  | some st, some ts =>
    if ts = [] then none
    else if st.main_bound then
      some (Emission.clipboardRequest selection (codeSelectType ts))
    else none
  | _, _ => none

/-- An image type of the protocol's clipboard type set (PNG, BMP, TIFF,
JPG).  Used only by `specSelectType` below. -/
def isImageType (t : Nat) : Bool :=
  t = VD_AGENT_CLIPBOARD_IMAGE_PNG || t = VD_AGENT_CLIPBOARD_IMAGE_BMP ||
  t = VD_AGENT_CLIPBOARD_IMAGE_TIFF || t = VD_AGENT_CLIPBOARD_IMAGE_JPG

/-- The selection procedure in the specification's words, as the comparison
point for the grab-type selection: an exact text type wins immediately;
otherwise an image type encountered during the scan is remembered as a
fallback while the scan continues looking for text; if text never appears
the remembered image type is used, failing that the first advertised type.
Differs from `grabScan` in treating every protocol image type, not only
PNG, as a rememberable fallback. -/
def specSelectScan (preferred : Nat) : List Nat → Nat
  | [] => preferred
  | t :: rest =>
    if t = VD_AGENT_CLIPBOARD_UTF8_TEXT then t
    else if isImageType t then specSelectScan t rest
    else specSelectScan preferred rest

/-- The type the specification's selection procedure picks from a non-empty
advertised list. -/
def specSelectType (types : List Nat) : Nat := specSelectScan (types.headD 0) types

/-- A listed file of a drag event; the host path pointer may be null. -/
structure DraggedFile where
  host_path : Option String
  deriving DecidableEq, Repr

/-- winrun_drag_event; the files pointer may be null, and the C file_count
is the length of the modelled list. -/
structure DragEvent where
  event_type : Nat
  files : Option (List DraggedFile)
  deriving DecidableEq, Repr

/-- Outcome of a drag-event call: the file handles resolved (in order), the
handles released on the failure path, the handle list submitted to the
asynchronous file copy (none when no copy was submitted), and the C return
value.  External file handles (GFile objects) are identified by the `Nat`
the resolution oracle assigns. -/
structure DragResult where
  resolved : List Nat
  released : List Nat
  submitted : Option (List Nat)
  ok : Bool
  deriving DecidableEq, Repr

/-- The path-resolution loop of winrun_spice_send_drag_event: walks the file
list resolving each host path through the oracle `resolve` (modelling
g_file_new_for_path); stops at the first null path or failed resolution.
Returns the handles resolved so far and whether every file resolved. -/
def resolveFiles (resolve : String → Option Nat) :
    List DraggedFile → List Nat × Bool
  | [] => ([], true)
  | f :: rest =>
    match f.host_path with
    | none => ([], false)
    | some p =>
      match resolve p with
      | none => ([], false)
      | some h =>
        let r := resolveFiles resolve rest
        (h :: r.1, r.2)

/-- Body of winrun_spice_send_drag_event on a non-null stream and event:
rejects an unbound main channel; on a DROP with a non-empty file list,
resolves every path, and either submits the asynchronous file copy with all
handles (success) or releases every handle resolved so far, discards the
transfer context, and fails; any other event falls through and returns
true. -/
def send_drag_core (resolve : String → Option Nat) (st : StreamState)
    (ev : DragEvent) : StreamState × DragResult :=
  if st.main_bound = false then
    (st, { resolved := [], released := [], submitted := none, ok := false })
  else
    match ev.files with
    | some fs =>
      if ev.event_type = WINRUN_DRAG_EVENT_DROP ∧ fs ≠ [] then
        let r := resolveFiles resolve fs
        if r.2 then
          (st, { resolved := r.1, released := [], submitted := some r.1, ok := true })
        else
          (st, { resolved := r.1, released := r.1, submitted := none, ok := false })
      else
        (st, { resolved := [], released := [], submitted := none, ok := true })
    | none =>
      (st, { resolved := [], released := [], submitted := none, ok := true })

/-- winrun_spice_send_drag_event, including the null-pointer guards. -/
def winrun_spice_send_drag_event (resolve : String → Option Nat)
    (stream : Option StreamState) (event : Option DragEvent) :
    Option StreamState × DragResult :=
  match stream, event with
  | none, _ =>
    (none, { resolved := [], released := [], submitted := none, ok := false })
  | some st, none =>
    (some st, { resolved := [], released := [], submitted := none, ok := false })
  | some st, some ev =>
    let r := send_drag_core resolve st ev
    (some r.1, r.2)

/-- The metadata record winrun_mock_worker builds (double fields modelled as
rationals; 100.0, 800.0, 600.0 and 1.0 are exactly representable). -/
structure WindowMetadata where
  window_id : Nat
  position_x : ℚ
  position_y : ℚ
  width : ℚ
  height : ℚ
  scale_factor : ℚ
  is_resizable : Bool
  title : String
  deriving DecidableEq, Repr

/-- A notification delivered by the background worker to a registered
callback. -/
inductive WorkerNote where
  | metadata (md : WindowMetadata)
  | frame (length : Nat)
  | closed (reason : Nat) (message : String)
  deriving DecidableEq, Repr

/-- Which of the three creation-time callbacks are non-null. -/
structure WorkerCallbacks where
  has_metadata : Bool
  has_frame : Bool
  has_closed : Bool
  deriving DecidableEq, Repr

/-- The metadata winrun_mock_worker announces. -/
def mockMetadata (windowId : Nat) : WindowMetadata :=
  { window_id := windowId, position_x := 100, position_y := 100,
    width := 800, height := 600, scale_factor := 1,
    is_resizable := true, title := "Spice Window" }

/-- winrun_mock_worker as the trace of callback invocations it performs:
the metadata announcement (if that callback is non-null), then one frame
notification per loop iteration while the run-flag holds (if the frame
callback is non-null; `iterations` counts the loop passes before the flag
is observed clear), then the closed notification (if that callback is
non-null), after which the thread returns. -/
def winrun_mock_worker (windowId : Nat) (cbs : WorkerCallbacks)
    (iterations : Nat) : List WorkerNote :=
  (if cbs.has_metadata then [WorkerNote.metadata (mockMetadata windowId)] else [])
  ++ (if cbs.has_frame then List.replicate iterations (WorkerNote.frame 1024) else [])
  ++ (if cbs.has_closed
      then [WorkerNote.closed WINRUN_SPICE_CLOSE_REASON_REMOTE "Stream closed"]
      else [])

/-! ## Theorems -/

/-- C2: For every SCROLL mouse event accepted by winrun_spice_send_mouse_event
(non-null stream and event, input channel bound), the emissions are exactly
one press+release pair of the synthetic scroll button per unit of the
truncated absolute vertical delta — the scroll-up button for a positive
delta, the scroll-down button for a negative one — so a zero vertical delta
emits nothing and a horizontal-only delta emits nothing (the horizontal
delta never appears in the output). -/
theorem scroll_emits_truncated_abs_pairs :
    ∀ (st : StreamState) (ev : MouseEvent),
      st.inputs_bound = true →
      ev.event_type = WINRUN_MOUSE_EVENT_SCROLL →
      winrun_spice_send_mouse_event (some st) (some ev) =
        (some st,
         (List.replicate ev.scroll_delta_y.natAbs
           [Emission.buttonPress
              (if 0 < ev.scroll_delta_y then SPICE_MOUSE_BUTTON_UP
               else SPICE_MOUSE_BUTTON_DOWN) st.button_state,
            Emission.buttonRelease
              (if 0 < ev.scroll_delta_y then SPICE_MOUSE_BUTTON_UP
               else SPICE_MOUSE_BUTTON_DOWN) st.button_state]).flatten,
         true) := by
  intro st ev h1 h2
  simp only [winrun_spice_send_mouse_event, send_mouse_core, h1, h2,
    WINRUN_MOUSE_EVENT_MOVE, WINRUN_MOUSE_EVENT_PRESS, WINRUN_MOUSE_EVENT_RELEASE,
    WINRUN_MOUSE_EVENT_SCROLL]
  norm_num
  rcases lt_trichotomy 0 ev.scroll_delta_y with h | h | h
  · have ht : ev.scroll_delta_y.toNat = ev.scroll_delta_y.natAbs := by omega
    simp [scrollEmissions, h, ht]
  · simp [scrollEmissions, ← h]
  · have h0 : ¬ (0 : Int) < ev.scroll_delta_y := by omega
    have ht : (-ev.scroll_delta_y).toNat = ev.scroll_delta_y.natAbs := by omega
    simp [scrollEmissions, h, h0, ht]

/-- Witness for C2: a SCROLL event with truncated vertical delta −2 and a
nonzero horizontal delta emits exactly two scroll-down pairs. -/
theorem scroll_emits_truncated_abs_pairs_witness :
    winrun_spice_send_mouse_event (some (bindInputs freshStream))
        (some { event_type := 3, button := 0, x := 0, y := 0,
                scroll_delta_x := 7, scroll_delta_y := -2 }) =
      (some (bindInputs freshStream),
       [Emission.buttonPress SPICE_MOUSE_BUTTON_DOWN 0,
        Emission.buttonRelease SPICE_MOUSE_BUTTON_DOWN 0,
        Emission.buttonPress SPICE_MOUSE_BUTTON_DOWN 0,
        Emission.buttonRelease SPICE_MOUSE_BUTTON_DOWN 0],
       true) := by
  have h := scroll_emits_truncated_abs_pairs (bindInputs freshStream)
    { event_type := 3, button := 0, x := 0, y := 0,
      scroll_delta_x := 7, scroll_delta_y := -2 } rfl rfl
  exact h.trans (by decide)

/-- C4: each send operation returns false with no emission, no callback
invocation, and no state change when given a null stream handle, a null
event/clipboard pointer, or when the channel it requires (input for
mouse/keyboard, main for clipboard/drag) is not yet bound. -/
theorem send_ops_reject_null_and_unbound :
    (∀ ev, winrun_spice_send_mouse_event none ev = (none, [], false)) ∧
    (∀ st, winrun_spice_send_mouse_event (some st) none = (some st, [], false)) ∧
    (∀ st ev, st.inputs_bound = false →
      winrun_spice_send_mouse_event (some st) (some ev) = (some st, [], false)) ∧
    (∀ ev, winrun_spice_send_keyboard_event none ev = (none, [], false)) ∧
    (∀ st, winrun_spice_send_keyboard_event (some st) none = (some st, [], false)) ∧
    (∀ st ev, st.inputs_bound = false →
      winrun_spice_send_keyboard_event (some st) (some ev) = (some st, [], false)) ∧
    (∀ c, winrun_spice_send_clipboard none c = (none, [], false)) ∧
    (∀ st, winrun_spice_send_clipboard (some st) none = (some st, [], false)) ∧
    (∀ st c, st.main_bound = false →
      winrun_spice_send_clipboard (some st) (some c) = (some st, [], false)) ∧
    (∀ r ev, winrun_spice_send_drag_event r none ev =
      (none, { resolved := [], released := [], submitted := none, ok := false })) ∧
    (∀ r st, winrun_spice_send_drag_event r (some st) none =
      (some st, { resolved := [], released := [], submitted := none, ok := false })) ∧
    (∀ r st ev, st.main_bound = false →
      winrun_spice_send_drag_event r (some st) (some ev) =
        (some st, { resolved := [], released := [], submitted := none, ok := false })) := by
  refine ⟨fun ev => rfl, fun st => rfl, ?_, fun ev => rfl, fun st => rfl, ?_,
    fun c => rfl, fun st => rfl, ?_, fun r ev => rfl, fun r st => rfl, ?_⟩
  · intro st ev h
    simp [winrun_spice_send_mouse_event, send_mouse_core, h]
  · intro st ev h
    simp [winrun_spice_send_keyboard_event, send_key_core, h]
  · intro st c h
    cases hd : c.data with
    | none => simp [winrun_spice_send_clipboard, send_clipboard_core, hd]
    | some d => simp [winrun_spice_send_clipboard, send_clipboard_core, hd, h]
  · intro r st ev h
    simp [winrun_spice_send_drag_event, send_drag_core, h]

/-- Witness for C4: concrete rejected calls of each kind. -/
theorem send_ops_reject_null_and_unbound_witness :
    winrun_spice_send_mouse_event none none = (none, [], false) ∧
    winrun_spice_send_mouse_event (some freshStream)
      (some { event_type := 0, button := 0, x := 1, y := 2,
              scroll_delta_x := 0, scroll_delta_y := 0 }) =
      (some freshStream, [], false) ∧
    winrun_spice_send_keyboard_event (some freshStream)
      (some { event_type := 0, key_code := 1, scan_code := 2,
              is_extended_key := false }) =
      (some freshStream, [], false) ∧
    winrun_spice_send_clipboard (some freshStream)
      (some { format := 0, data := some [65], data_length := 1 }) =
      (some freshStream, [], false) ∧
    winrun_spice_send_drag_event (fun _ => some 1) (some freshStream)
      (some { event_type := 3, files := some [{ host_path := some "a" }] }) =
      (some freshStream,
       { resolved := [], released := [], submitted := none, ok := false }) := by
  refine ⟨send_ops_reject_null_and_unbound.1 none, ?_, ?_, ?_, ?_⟩
  · exact send_ops_reject_null_and_unbound.2.2.1 freshStream _ rfl
  · exact send_ops_reject_null_and_unbound.2.2.2.2.2.1 freshStream _ rfl
  · exact send_ops_reject_null_and_unbound.2.2.2.2.2.2.2.2.1 freshStream _ rfl
  · exact send_ops_reject_null_and_unbound.2.2.2.2.2.2.2.2.2.2.2 _ freshStream _ rfl

/-- C6: winrun_spice_send_clipboard, given a non-null stream and clipboard
struct with a non-null data pointer and a bound main channel, performs
exactly the two-step handshake — a grab advertising exactly the one mapped
protocol type, then a notify carrying the caller's bytes in that type — and
returns true; the format mapping sends TEXT, RTF, HTML and FILE_URL as the
UTF-8 text type, PNG as the PNG image type, and TIFF as the BMP image
type. -/
theorem send_clipboard_handshake_and_mapping :
    (∀ (st : StreamState) (c : ClipboardData) (d : List Nat),
      st.main_bound = true → c.data = some d →
      winrun_spice_send_clipboard (some st) (some c) =
        (some st,
         [Emission.clipboardGrab VD_AGENT_CLIPBOARD_SELECTION_CLIPBOARD
            [winrun_format_to_spice c.format],
          Emission.clipboardNotify VD_AGENT_CLIPBOARD_SELECTION_CLIPBOARD
            (winrun_format_to_spice c.format) d c.data_length],
         true)) ∧
    winrun_format_to_spice WINRUN_CLIPBOARD_FORMAT_TEXT = VD_AGENT_CLIPBOARD_UTF8_TEXT ∧
    winrun_format_to_spice WINRUN_CLIPBOARD_FORMAT_RTF = VD_AGENT_CLIPBOARD_UTF8_TEXT ∧
    winrun_format_to_spice WINRUN_CLIPBOARD_FORMAT_HTML = VD_AGENT_CLIPBOARD_UTF8_TEXT ∧
    winrun_format_to_spice WINRUN_CLIPBOARD_FORMAT_FILE_URL = VD_AGENT_CLIPBOARD_UTF8_TEXT ∧
    winrun_format_to_spice WINRUN_CLIPBOARD_FORMAT_PNG = VD_AGENT_CLIPBOARD_IMAGE_PNG ∧
    winrun_format_to_spice WINRUN_CLIPBOARD_FORMAT_TIFF = VD_AGENT_CLIPBOARD_IMAGE_BMP := by
  refine ⟨?_, by decide, by decide, by decide, by decide, by decide, by decide⟩
  intro st c d hm hd
  simp [winrun_spice_send_clipboard, send_clipboard_core, hd, hm]

/-- Witness for C6: sending a TIFF clipboard grabs with the BMP image type
and notifies with the caller's bytes in that type. -/
theorem send_clipboard_handshake_and_mapping_witness :
    winrun_spice_send_clipboard (some (bindMain freshStream))
      (some { format := WINRUN_CLIPBOARD_FORMAT_TIFF, data := some [9, 8],
              data_length := 2 }) =
      (some (bindMain freshStream),
       [Emission.clipboardGrab 0 [VD_AGENT_CLIPBOARD_IMAGE_BMP],
        Emission.clipboardNotify 0 VD_AGENT_CLIPBOARD_IMAGE_BMP [9, 8] 2],
       true) := by
  have h := send_clipboard_handshake_and_mapping.1 (bindMain freshStream)
    { format := WINRUN_CLIPBOARD_FORMAT_TIFF, data := some [9, 8], data_length := 2 }
    [9, 8] rfl rfl
  exact h.trans (by decide)

/-- C8: for every accepted keyboard event the transmitted scan code is the
hardware scan code when non-zero, else the virtual key code, and when the
event marks an extended key bit 8 is set (OR with 0x100); DOWN emits exactly
one key-press primitive, UP exactly one key-release primitive, and any other
event type returns false with no emission. -/
theorem keyboard_translation :
    (∀ ev : KeyboardEvent, ev.is_extended_key = false → ev.scan_code ≠ 0 →
      keyScancode ev = ev.scan_code) ∧
    (∀ ev : KeyboardEvent, ev.is_extended_key = false → ev.scan_code = 0 →
      keyScancode ev = ev.key_code) ∧
    (∀ ev : KeyboardEvent, ev.is_extended_key = true →
      keyScancode ev =
        (if ev.scan_code ≠ 0 then ev.scan_code else ev.key_code) ||| 0x100 ∧
      (keyScancode ev).testBit 8 = true) ∧
    (∀ (st : StreamState) (ev : KeyboardEvent), st.inputs_bound = true →
      (ev.event_type = WINRUN_KEY_EVENT_DOWN →
        winrun_spice_send_keyboard_event (some st) (some ev) =
          (some st, [Emission.keyPress (keyScancode ev)], true)) ∧
      (ev.event_type = WINRUN_KEY_EVENT_UP →
        winrun_spice_send_keyboard_event (some st) (some ev) =
          (some st, [Emission.keyRelease (keyScancode ev)], true)) ∧
      (ev.event_type ≠ WINRUN_KEY_EVENT_DOWN → ev.event_type ≠ WINRUN_KEY_EVENT_UP →
        winrun_spice_send_keyboard_event (some st) (some ev) =
          (some st, [], false))) := by
  refine ⟨?_, ?_, ?_, ?_⟩
  · intro ev he hs
    simp [keyScancode, he, hs]
  · intro ev he hs
    simp [keyScancode, he, hs]
  · intro ev he
    refine ⟨by simp [keyScancode, he], ?_⟩
    simp only [keyScancode, he, if_true]
    rw [Nat.testBit_lor]
    have h256 : (0x100 : Nat).testBit 8 = true := by decide
    simp [h256]
  · intro st ev h1
    refine ⟨?_, ?_, ?_⟩
    · intro h2
      simp [winrun_spice_send_keyboard_event, send_key_core, h1, h2]
    · intro h2
      simp [winrun_spice_send_keyboard_event, send_key_core, h1, h2,
        WINRUN_KEY_EVENT_DOWN, WINRUN_KEY_EVENT_UP]
    · intro h2 h3
      simp [winrun_spice_send_keyboard_event, send_key_core, h1, h2, h3]

/-- Witness for C8: an extended DOWN event with zero hardware scan code
transmits the virtual key code with bit 8 set; an event of type 5 is
rejected. -/
theorem keyboard_translation_witness :
    keyScancode { event_type := 0, key_code := 65, scan_code := 0,
                  is_extended_key := true } = 321 ∧
    winrun_spice_send_keyboard_event (some (bindInputs freshStream))
      (some { event_type := 0, key_code := 65, scan_code := 0,
              is_extended_key := true }) =
      (some (bindInputs freshStream), [Emission.keyPress 321], true) ∧
    winrun_spice_send_keyboard_event (some (bindInputs freshStream))
      (some { event_type := 5, key_code := 65, scan_code := 0,
              is_extended_key := false }) =
      (some (bindInputs freshStream), [], false) := by
  have hext := (keyboard_translation.2.2.1
    { event_type := 0, key_code := 65, scan_code := 0, is_extended_key := true } rfl).1
  have hdown := (keyboard_translation.2.2.2 (bindInputs freshStream)
    { event_type := 0, key_code := 65, scan_code := 0, is_extended_key := true } rfl).1 rfl
  have hother := ((keyboard_translation.2.2.2 (bindInputs freshStream)
    { event_type := 5, key_code := 65, scan_code := 0, is_extended_key := false }
    rfl).2.2 (by decide) (by decide))
  refine ⟨hext.trans (by decide), hdown.trans (by decide), hother⟩

/-- C9: with the three creation-time callbacks registered, the background
worker emits exactly one metadata notification — width 800, height 600,
scale factor 1.0 — before any frame notification, then one frame
notification per loop pass while the run-flag holds, and after the flag is
cleared exactly one closed notification, terminating the trace. -/
theorem worker_metadata_then_frames_then_closed :
    ∀ (wid n : Nat) (cbs : WorkerCallbacks),
      cbs.has_metadata = true → cbs.has_frame = true → cbs.has_closed = true →
      winrun_mock_worker wid cbs n =
        WorkerNote.metadata (mockMetadata wid)
          :: (List.replicate n (WorkerNote.frame 1024)
              ++ [WorkerNote.closed WINRUN_SPICE_CLOSE_REASON_REMOTE "Stream closed"]) ∧
      (mockMetadata wid).width = 800 ∧
      (mockMetadata wid).height = 600 ∧
      (mockMetadata wid).scale_factor = 1 := by
  intro wid n cbs h1 h2 h3
  refine ⟨?_, rfl, rfl, rfl⟩
  simp [winrun_mock_worker, h1, h2, h3]

/-- Witness for C9: a run with two loop passes produces metadata(800×600,
scale 1), two frames, then closed. -/
theorem worker_metadata_then_frames_then_closed_witness :
    winrun_mock_worker 7 { has_metadata := true, has_frame := true,
                           has_closed := true } 2 =
      [WorkerNote.metadata (mockMetadata 7), WorkerNote.frame 1024,
       WorkerNote.frame 1024, WorkerNote.closed 0 "Stream closed"] ∧
    (mockMetadata 7).width = 800 := by
  have h := worker_metadata_then_frames_then_closed 7 2
    { has_metadata := true, has_frame := true, has_closed := true } rfl rfl rfl
  exact ⟨h.1.trans (by decide), h.2.1⟩

/-- On a valid delivery (non-null data, non-zero size) the Stream update of
on_clipboard_data is exactly the uint64 increment of the sequence counter,
whether or not a callback is registered. -/
lemma on_clipboard_data_core_fst (st : StreamState) (ty : Nat) (d : List Nat)
    (size : Nat) (h : size ≠ 0) :
    (on_clipboard_data_core st ty (some d) size).1 =
      { st with clipboard_sequence := (st.clipboard_sequence + 1) % 2 ^ 64 } := by
  simp only [on_clipboard_data_core, h, if_false, ite_false]
  split <;> rfl

/-- Shift identity for the list of successive counter values. -/
lemma range_map_shift (s n : Nat) :
    (s + 1) :: List.map (fun i => s + 1 + i + 1) (List.range n) =
    List.map (fun i => s + i + 1) (List.range (n + 1)) := by
  rw [List.range_succ_eq_map, List.map_cons, List.map_map]
  have h2 : List.map (fun i => s + 1 + i + 1) (List.range n) =
      List.map ((fun i => s + i + 1) ∘ Nat.succ) (List.range n) :=
    List.map_congr_left (fun i _ => by simp only [Function.comp_apply]; omega)
  rw [h2]

/-- Away from the uint64 wrap, a run of valid deliveries advances the
counter by one per delivery and records the successive counter values. -/
lemma runDeliveries_spec (ds : List (Nat × List Nat × Nat)) :
    ∀ st : StreamState, (∀ d ∈ ds, d.2.2 ≠ 0) →
      st.clipboard_sequence + ds.length < 2 ^ 64 →
      (runDeliveries st ds).1 =
        { st with clipboard_sequence := st.clipboard_sequence + ds.length } ∧
      (runDeliveries st ds).2 =
        (List.range ds.length).map (fun i => st.clipboard_sequence + i + 1) := by
  induction ds with
  | nil =>
    intro st _ _
    exact ⟨by simp [runDeliveries], by simp [runDeliveries]⟩
  | cons hd tl ih =>
    intro st hvalid hbound
    obtain ⟨ty, d, size⟩ := hd
    have hsz : size ≠ 0 := hvalid (ty, d, size) (by simp)
    have hmod : (st.clipboard_sequence + 1) % 2 ^ 64 = st.clipboard_sequence + 1 := by
      have : st.clipboard_sequence + 1 < 2 ^ 64 := by
        simp only [List.length_cons] at hbound
        omega
      exact Nat.mod_eq_of_lt this
    have hfst : (on_clipboard_data_core st ty (some d) size).1 =
        { st with clipboard_sequence := st.clipboard_sequence + 1 } := by
      rw [on_clipboard_data_core_fst st ty d size hsz, hmod]
    have hih := ih { st with clipboard_sequence := st.clipboard_sequence + 1 }
      (fun x hx => hvalid x (List.mem_cons_of_mem _ hx))
      (by simp only [List.length_cons] at hbound; simpa using by omega)
    simp only [runDeliveries, hfst]
    refine ⟨?_, ?_⟩
    · rw [hih.1]
      simp only [List.length_cons]
      congr 1
      omega
    · rw [hih.2]
      simp only [List.length_cons]
      exact range_map_shift st.clipboard_sequence tl.length

/-- C1: on any Stream whose sequence counter is at its creation value 0, the
counter values produced by n successive valid guest-data deliveries
(non-null data, non-zero length; concurrent deliveries are serialized by the
mutex, so a run is their serialization order) are exactly 1, 2, …, n —
strictly increasing, starting from 1, with no gaps and no repeats — as long
as n stays below the uint64 wrap. -/
theorem clipboard_sequences_one_to_n :
    ∀ (st : StreamState) (ds : List (Nat × List Nat × Nat)),
      st.clipboard_sequence = 0 →
      (∀ d ∈ ds, d.2.2 ≠ 0) →
      ds.length < 2 ^ 64 →
      (runDeliveries st ds).2 = (List.range ds.length).map (fun i => i + 1) ∧
      (runDeliveries st ds).2.Pairwise (· < ·) ∧
      ((runDeliveries st ds).2.head? = if ds.length = 0 then none else some 1) := by
  intro st ds h0 hvalid hlen
  have hs := runDeliveries_spec ds st hvalid (by omega)
  have heq : (runDeliveries st ds).2 = (List.range ds.length).map (fun i => i + 1) := by
    rw [hs.2, h0]
    simp only [Nat.zero_add]
  refine ⟨heq, ?_, ?_⟩
  · rw [heq]
    exact (List.pairwise_lt_range ds.length).map _ (fun a b hab => by omega)
  · rw [heq]
    cases ds with
    | nil => simp
    | cons hd tl => simp [List.range_succ_eq_map]

/-- Witness for C1: three valid deliveries on a fresh Stream produce the
sequence numbers [1, 2, 3]. -/
theorem clipboard_sequences_one_to_n_witness :
    (runDeliveries freshStream [(1, [65], 1), (2, [66], 1), (9, [67], 2)]).2 =
      [1, 2, 3] := by
  have h := clipboard_sequences_one_to_n freshStream
    [(1, [65], 1), (2, [66], 1), (9, [67], 2)] rfl (by decide) (by norm_num)
  exact h.1.trans (by decide)

/-- C10: on_clipboard_data increments the sequence counter on every valid
delivery even when no clipboard callback is registered, invoking no
callback; consequently, after k ≥ 1 valid deliveries without a callback,
the first delivery observed through a newly registered callback carries
sequence number k + 1 > 1. -/
theorem sequence_increments_without_callback :
    (∀ (st : StreamState) (ty : Nat) (d : List Nat) (size : Nat),
      st.clipboard_cb_set = false → size ≠ 0 →
      on_clipboard_data_core st ty (some d) size =
        ({ st with clipboard_sequence := (st.clipboard_sequence + 1) % 2 ^ 64 },
         none)) ∧
    (∀ (st : StreamState) (ds : List (Nat × List Nat × Nat)) (ty : Nat)
        (d : List Nat) (size : Nat),
      st.clipboard_sequence = 0 →
      (∀ x ∈ ds, x.2.2 ≠ 0) → ds.length + 1 < 2 ^ 64 → size ≠ 0 →
      1 ≤ ds.length →
      (on_clipboard_data
        (winrun_spice_set_clipboard_callback (some (runDeliveries st ds).1) true)
        ty (some d) size).2 =
        some { format := spice_to_winrun_format ty, data := d,
               data_length := size, sequence_number := ds.length + 1 } ∧
      1 < ds.length + 1) := by
  constructor
  · intro st ty d size hcb hsz
    simp [on_clipboard_data_core, hsz, hcb]
  · intro st ds ty d size h0 hvalid hbound hsz hk
    have hs := runDeliveries_spec ds st hvalid (by omega)
    have hone : (runDeliveries st ds).1 =
        { st with clipboard_sequence := ds.length } := by
      rw [hs.1, h0]
      simp only [Nat.zero_add]
    refine ⟨?_, by omega⟩
    rw [hone]
    have hmod : (ds.length + 1) % 2 ^ 64 = ds.length + 1 :=
      Nat.mod_eq_of_lt (by omega)
    simp [on_clipboard_data, on_clipboard_data_core,
      winrun_spice_set_clipboard_callback, hsz, hmod]
    omega

/-- Witness for C10: two valid deliveries before registration make the first
observed sequence number 3 > 1. -/
theorem sequence_increments_without_callback_witness :
    (on_clipboard_data
      (winrun_spice_set_clipboard_callback
        (some (runDeliveries freshStream [(1, [65], 1), (2, [66], 1)]).1) true)
      1 (some [67]) 1).2 =
      some { format := 0, data := [67], data_length := 1,
             sequence_number := 3 } ∧
    on_clipboard_data_core freshStream 1 (some [65]) 1 =
      ({ freshStream with clipboard_sequence := 1 }, none) := by
  have h := (sequence_increments_without_callback.2 freshStream
    [(1, [65], 1), (2, [66], 1)] 1 [67] 1 rfl (by decide) (by norm_num) (by decide)
    (by decide)).1
  have h2 := sequence_increments_without_callback.1 freshStream 1 [65] 1 rfl
    (by decide)
  exact ⟨h.trans (by decide), h2.trans (by decide)⟩

/-- The grab scan returns the UTF8-text type as soon as it appears
anywhere in the advertised list. -/
lemma grabScan_text : ∀ (ts : List Nat) (p : Nat),
    VD_AGENT_CLIPBOARD_UTF8_TEXT ∈ ts →
    grabScan p ts = VD_AGENT_CLIPBOARD_UTF8_TEXT := by
  intro ts
  induction ts with
  | nil => intro p h; cases h
  | cons t rest ih =>
    intro p h
    by_cases ht : t = VD_AGENT_CLIPBOARD_UTF8_TEXT
    · simp [grabScan, ht]
    · have hmem : VD_AGENT_CLIPBOARD_UTF8_TEXT ∈ rest := by
        rcases List.mem_cons.mp h with h1 | h1
        · exact absurd h1.symm ht
        · exact h1
      by_cases hp : t = VD_AGENT_CLIPBOARD_IMAGE_PNG
      · simp only [grabScan, if_neg ht, if_pos hp]
        exact ih t hmem
      · simp only [grabScan, if_neg ht, if_neg hp]
        exact ih p hmem

/-- Once the carried preferred type is PNG and no text type is left, the
scan keeps returning PNG. -/
lemma grabScan_png_self : ∀ ts : List Nat,
    VD_AGENT_CLIPBOARD_UTF8_TEXT ∉ ts →
    grabScan VD_AGENT_CLIPBOARD_IMAGE_PNG ts = VD_AGENT_CLIPBOARD_IMAGE_PNG := by
  intro ts
  induction ts with
  | nil => intro _; rfl
  | cons t rest ih =>
    intro h
    have ht : t ≠ VD_AGENT_CLIPBOARD_UTF8_TEXT := fun he => h (by simp [he])
    have hrest : VD_AGENT_CLIPBOARD_UTF8_TEXT ∉ rest := fun hr => h (by simp [hr])
    by_cases hp : t = VD_AGENT_CLIPBOARD_IMAGE_PNG
    · simp only [grabScan, if_neg ht, if_pos hp, hp]
      exact ih hrest
    · simp only [grabScan, if_neg ht, if_neg hp]
      exact ih hrest

/-- Without a text type, the scan returns PNG whenever PNG is advertised. -/
lemma grabScan_png : ∀ (ts : List Nat) (p : Nat),
    VD_AGENT_CLIPBOARD_UTF8_TEXT ∉ ts →
    VD_AGENT_CLIPBOARD_IMAGE_PNG ∈ ts →
    grabScan p ts = VD_AGENT_CLIPBOARD_IMAGE_PNG := by
  intro ts
  induction ts with
  | nil => intro p _ h; cases h
  | cons t rest ih =>
    intro p hnt hmem
    have ht : t ≠ VD_AGENT_CLIPBOARD_UTF8_TEXT := fun he => hnt (by simp [he])
    have hrest : VD_AGENT_CLIPBOARD_UTF8_TEXT ∉ rest := fun hr => hnt (by simp [hr])
    by_cases hp : t = VD_AGENT_CLIPBOARD_IMAGE_PNG
    · simp only [grabScan, if_neg ht, if_pos hp, hp]
      exact grabScan_png_self rest hrest
    · have hmem2 : VD_AGENT_CLIPBOARD_IMAGE_PNG ∈ rest := by
        rcases List.mem_cons.mp hmem with h1 | h1
        · exact absurd h1.symm hp
        · exact h1
      simp only [grabScan, if_neg ht, if_neg hp]
      exact ih p hrest hmem2

/-- Without a text type or a PNG type, the scan never replaces the carried
preferred type. -/
lemma grabScan_default : ∀ (ts : List Nat) (p : Nat),
    VD_AGENT_CLIPBOARD_UTF8_TEXT ∉ ts →
    VD_AGENT_CLIPBOARD_IMAGE_PNG ∉ ts →
    grabScan p ts = p := by
  intro ts
  induction ts with
  | nil => intro p _ _; rfl
  | cons t rest ih =>
    intro p hnt hnp
    have ht : t ≠ VD_AGENT_CLIPBOARD_UTF8_TEXT := fun he => hnt (by simp [he])
    have hp : t ≠ VD_AGENT_CLIPBOARD_IMAGE_PNG := fun he => hnp (by simp [he])
    simp only [grabScan, if_neg ht, if_neg hp]
    exact ih p (fun hr => hnt (by simp [hr])) (fun hr => hnp (by simp [hr]))

/-- C5 counterexample: a guest grab advertising the list [7, BMP] (an
unknown type followed by the protocol's BMP image type, no text).  The
claim's selection procedure remembers the image type BMP and, text never
appearing, requests it; the code's scan remembers only PNG image types, so
on_clipboard_grab requests type 7, the first advertised type — not BMP. -/
theorem grab_selection_counterexample :
    on_clipboard_grab (some (bindMain freshStream)) 0
        (some [7, VD_AGENT_CLIPBOARD_IMAGE_BMP]) =
      some (Emission.clipboardRequest 0 7) ∧
    specSelectType [7, VD_AGENT_CLIPBOARD_IMAGE_BMP] =
      VD_AGENT_CLIPBOARD_IMAGE_BMP ∧
    isImageType VD_AGENT_CLIPBOARD_IMAGE_BMP = true ∧
    isImageType 7 = false ∧
    (7 : Nat) ≠ VD_AGENT_CLIPBOARD_IMAGE_BMP := by decide

/-- C5 (amended): the coordinator's selection prefers an exact UTF8-text
type, then a PNG image type (only PNG is remembered as the image fallback,
not the other protocol image types), then the first advertised type; the
selected type is requested from the bound main channel, nothing is
requested when no main channel is bound, and a grab advertising
[PNG, TEXT] requests TEXT, not PNG. -/
theorem grab_selects_text_then_png :
    (∀ ts : List Nat, VD_AGENT_CLIPBOARD_UTF8_TEXT ∈ ts →
      codeSelectType ts = VD_AGENT_CLIPBOARD_UTF8_TEXT) ∧
    (∀ ts : List Nat, VD_AGENT_CLIPBOARD_UTF8_TEXT ∉ ts →
      VD_AGENT_CLIPBOARD_IMAGE_PNG ∈ ts →
      codeSelectType ts = VD_AGENT_CLIPBOARD_IMAGE_PNG) ∧
    (∀ ts : List Nat, VD_AGENT_CLIPBOARD_UTF8_TEXT ∉ ts →
      VD_AGENT_CLIPBOARD_IMAGE_PNG ∉ ts → codeSelectType ts = ts.headD 0) ∧
    (∀ (st : StreamState) (sel : Nat) (ts : List Nat), ts ≠ [] →
      st.main_bound = true →
      on_clipboard_grab (some st) sel (some ts) =
        some (Emission.clipboardRequest sel (codeSelectType ts))) ∧
    (∀ (st : StreamState) (sel : Nat) (ts : List Nat), st.main_bound = false →
      on_clipboard_grab (some st) sel (some ts) = none) ∧
    codeSelectType [VD_AGENT_CLIPBOARD_IMAGE_PNG, VD_AGENT_CLIPBOARD_UTF8_TEXT] =
      VD_AGENT_CLIPBOARD_UTF8_TEXT := by
  refine ⟨?_, ?_, ?_, ?_, ?_, by decide⟩
  · intro ts h
    exact grabScan_text ts _ h
  · intro ts h1 h2
    exact grabScan_png ts _ h1 h2
  · intro ts h1 h2
    exact grabScan_default ts _ h1 h2
  · intro st sel ts hne hm
    simp [on_clipboard_grab, hne, hm]
  · intro st sel ts hm
    simp only [on_clipboard_grab, hm]
    split <;> simp

/-- Witness for C5 (amended): a grab advertising [PNG, TEXT] on a Stream
with a bound main channel requests TEXT. -/
theorem grab_selects_text_then_png_witness :
    on_clipboard_grab (some (bindMain freshStream)) 0
        (some [VD_AGENT_CLIPBOARD_IMAGE_PNG, VD_AGENT_CLIPBOARD_UTF8_TEXT]) =
      some (Emission.clipboardRequest 0 VD_AGENT_CLIPBOARD_UTF8_TEXT) := by
  have h := grab_selects_text_then_png.2.2.2.1 (bindMain freshStream) 0
    [VD_AGENT_CLIPBOARD_IMAGE_PNG, VD_AGENT_CLIPBOARD_UTF8_TEXT]
    (by decide) rfl
  exact h.trans (by decide)

/-- A file with a null host path or a failing path resolution anywhere in
the list makes the resolution loop report failure. -/
lemma resolveFiles_fails (resolve : String → Option Nat) :
    ∀ fs : List DraggedFile,
      (∃ f ∈ fs, f.host_path = none ∨
        ∃ p, f.host_path = some p ∧ resolve p = none) →
      (resolveFiles resolve fs).2 = false := by
  intro fs
  induction fs with
  | nil => rintro ⟨f, hf, _⟩; cases hf
  | cons g rest ih =>
    rintro ⟨f, hf, hcase⟩
    rcases List.mem_cons.mp hf with rfl | hmem
    · rcases hcase with hnone | ⟨p, hp, hres⟩
      · simp [resolveFiles, hnone]
      · simp [resolveFiles, hp, hres]
    · cases hg : g.host_path with
      | none => simp [resolveFiles, hg]
      | some p =>
        cases hr : resolve p with
        | none => simp [resolveFiles, hg, hr]
        | some h =>
          have hrest := ih ⟨f, hmem, hcase⟩
          simp [resolveFiles, hg, hr, hrest]

/-- C7: when winrun_spice_send_drag_event handles a DROP with a non-empty
file list and some listed file has a null host path or fails to resolve,
the handles resolved so far are all released (released = resolved), no
asynchronous file copy is submitted, the transfer context does not survive
the call, the Stream is unchanged, and the call returns false. -/
theorem drag_drop_fails_atomically :
    ∀ (resolve : String → Option Nat) (st : StreamState) (ev : DragEvent)
      (fs : List DraggedFile),
      st.main_bound = true →
      ev.event_type = WINRUN_DRAG_EVENT_DROP →
      ev.files = some fs →
      fs ≠ [] →
      (∃ f ∈ fs, f.host_path = none ∨
        ∃ p, f.host_path = some p ∧ resolve p = none) →
      winrun_spice_send_drag_event resolve (some st) (some ev) =
        (some st,
         { resolved := (resolveFiles resolve fs).1,
           released := (resolveFiles resolve fs).1,
           submitted := none, ok := false }) := by
  intro resolve st ev fs hm ht hfiles hne hfail
  have h2 := resolveFiles_fails resolve fs hfail
  simp [winrun_spice_send_drag_event, send_drag_core, hm, ht, hfiles, hne, h2]

/-- Witness for C7: a DROP listing one resolvable file then one with a null
host path releases the one resolved handle, submits nothing, and fails. -/
theorem drag_drop_fails_atomically_witness :
    winrun_spice_send_drag_event (fun p => if p = "ok" then some 1 else none)
      (some (bindMain freshStream))
      (some { event_type := 3,
              files := some [{ host_path := some "ok" }, { host_path := none }] }) =
      (some (bindMain freshStream),
       { resolved := [1], released := [1], submitted := none, ok := false }) := by
  have h := drag_drop_fails_atomically (fun p => if p = "ok" then some 1 else none)
    (bindMain freshStream)
    { event_type := 3,
      files := some [{ host_path := some "ok" }, { host_path := none }] }
    [{ host_path := some "ok" }, { host_path := none }]
    rfl rfl rfl (by decide)
    ⟨{ host_path := none }, by decide, Or.inl rfl⟩
  exact h.trans (by decide)

/-- Bit i of the 32-bit complement. -/
lemma testBit_not32 (m i : Nat) :
    (not32 m).testBit i = Bool.xor (decide (i < 32)) (m.testBit i) := by
  rw [not32, Nat.testBit_xor, Nat.testBit_two_pow_sub_one]

/-- ORing a mask in and immediately clearing it leaves the cleared value. -/
lemma land_lor_not32 (x m : Nat) (hm : m < 2 ^ 32) :
    (x ||| m) &&& not32 m = x &&& not32 m := by
  apply Nat.eq_of_testBit_eq
  intro i
  rw [Nat.testBit_land, Nat.testBit_lor, Nat.testBit_land, testBit_not32]
  by_cases hi : i < 32
  · simp only [hi, decide_True]
    cases m.testBit i <;> cases x.testBit i <;> simp
  · have hmi : m.testBit i = false :=
      Nat.testBit_lt_two_pow
        (lt_of_lt_of_le hm (Nat.pow_le_pow_right (by norm_num) (Nat.le_of_not_lt hi)))
    simp [hi, hmi]

/-- Clearing a mask is idempotent. -/
lemma land_not32_idem (x m : Nat) :
    (x &&& not32 m) &&& not32 m = x &&& not32 m := by
  rw [Nat.land_assoc]
  congr 1
  apply Nat.eq_of_testBit_eq
  intro i
  rw [Nat.testBit_land]
  cases (not32 m).testBit i <;> simp

/-- Clearing a mask disjoint from the value leaves the value unchanged. -/
lemma land_not32_of_disjoint (x m : Nat) (hx : x < 2 ^ 32) (hxm : x &&& m = 0) :
    x &&& not32 m = x := by
  apply Nat.eq_of_testBit_eq
  intro i
  have hbit : (x.testBit i && m.testBit i) = false := by
    rw [← Nat.testBit_land, hxm]
    exact Nat.zero_testBit i
  rw [Nat.testBit_land, testBit_not32]
  by_cases hi : i < 32
  · cases hxi : x.testBit i
    · simp
    · have hmi : m.testBit i = false := by
        rw [hxi] at hbit
        simpa using hbit
      simp [hi, hmi]
  · have hxi : x.testBit i = false :=
      Nat.testBit_lt_two_pow
        (lt_of_lt_of_le hx (Nat.pow_le_pow_right (by norm_num) (Nat.le_of_not_lt hi)))
    simp [hxi]

/-- Every button mask fits in the 32-bit int. -/
lemma winrun_button_to_mask_lt (b : Nat) : winrun_button_to_mask b < 2 ^ 32 := by
  unfold winrun_button_to_mask
  split_ifs <;>
    norm_num [SPICE_MOUSE_BUTTON_MASK_LEFT, SPICE_MOUSE_BUTTON_MASK_RIGHT,
      SPICE_MOUSE_BUTTON_MASK_MIDDLE, SPICE_MOUSE_BUTTON_MASK_UP,
      SPICE_MOUSE_BUTTON_MASK_DOWN]

/-- send_mouse_event never changes which channels are bound. -/
lemma send_mouse_core_inputs (st : StreamState) (ev : MouseEvent) :
    (send_mouse_core st ev).1.inputs_bound = st.inputs_bound := by
  simp only [send_mouse_core]
  split_ifs <;> rfl

/-- PRESS ORs the button's mask bit into the tracked state. -/
lemma send_mouse_core_press (st : StreamState) (ev : MouseEvent)
    (h1 : st.inputs_bound = true) (h2 : ev.event_type = WINRUN_MOUSE_EVENT_PRESS) :
    (send_mouse_core st ev).1 =
      { st with button_state := st.button_state ||| winrun_button_to_mask ev.button } := by
  simp [send_mouse_core, h1, h2, WINRUN_MOUSE_EVENT_MOVE, WINRUN_MOUSE_EVENT_PRESS]

/-- RELEASE clears the button's mask bit from the tracked state (after the
emissions). -/
lemma send_mouse_core_release (st : StreamState) (ev : MouseEvent)
    (h1 : st.inputs_bound = true) (h2 : ev.event_type = WINRUN_MOUSE_EVENT_RELEASE) :
    (send_mouse_core st ev).1 =
      { st with button_state :=
          st.button_state &&& not32 (winrun_button_to_mask ev.button) } := by
  simp [send_mouse_core, h1, h2, WINRUN_MOUSE_EVENT_MOVE, WINRUN_MOUSE_EVENT_PRESS,
    WINRUN_MOUSE_EVENT_RELEASE]

/-- Events other than PRESS and RELEASE never change the tracked state. -/
lemma send_mouse_core_fst_other (st : StreamState) (ev : MouseEvent)
    (h2 : ev.event_type ≠ WINRUN_MOUSE_EVENT_PRESS)
    (h3 : ev.event_type ≠ WINRUN_MOUSE_EVENT_RELEASE) :
    (send_mouse_core st ev).1 = st := by
  simp only [send_mouse_core, if_neg h2, if_neg h3]
  split_ifs <;> rfl

/-- An event allowed between a PRESS of button b and its matching RELEASE
in the amended C3: anything that is not a PRESS or RELEASE of another
button (MOVE, SCROLL, unknown types, and PRESS/RELEASE of b itself). -/
def OnlyButton (b : Nat) (ev : MouseEvent) : Prop :=
  (ev.event_type = WINRUN_MOUSE_EVENT_PRESS ∨
   ev.event_type = WINRUN_MOUSE_EVENT_RELEASE) → ev.button = b

instance (b : Nat) (ev : MouseEvent) : Decidable (OnlyButton b ev) := by
  unfold OnlyButton
  infer_instance

/-- Through any run of events touching no button other than b, the tracked
state with b's bit cleared is invariant, as is the inputs binding. -/
lemma runMouse_inv (b : Nat) (s0 : Nat) :
    ∀ (mids : List MouseEvent) (st : StreamState),
      st.inputs_bound = true →
      (∀ ev ∈ mids, OnlyButton b ev) →
      st.button_state &&& not32 (winrun_button_to_mask b) = s0 →
      (runMouse st mids).inputs_bound = true ∧
      (runMouse st mids).button_state &&& not32 (winrun_button_to_mask b) = s0 := by
  intro mids
  induction mids with
  | nil => intro st h1 _ h3; exact ⟨h1, h3⟩
  | cons ev rest ih =>
    intro st h1 hok h3
    have hok_ev := hok ev (List.mem_cons_self ev rest)
    have hok_rest : ∀ e ∈ rest, OnlyButton b e :=
      fun e he => hok e (List.mem_cons_of_mem _ he)
    have hin : (send_mouse_core st ev).1.inputs_bound = true := by
      rw [send_mouse_core_inputs]
      exact h1
    have hbs : (send_mouse_core st ev).1.button_state &&&
        not32 (winrun_button_to_mask b) = s0 := by
      by_cases hp : ev.event_type = WINRUN_MOUSE_EVENT_PRESS
      · have hb := hok_ev (Or.inl hp)
        rw [send_mouse_core_press st ev h1 hp]
        show (st.button_state ||| winrun_button_to_mask ev.button) &&&
          not32 (winrun_button_to_mask b) = s0
        rw [hb, land_lor_not32 _ _ (winrun_button_to_mask_lt b)]
        exact h3
      · by_cases hr : ev.event_type = WINRUN_MOUSE_EVENT_RELEASE
        · have hb := hok_ev (Or.inr hr)
          rw [send_mouse_core_release st ev h1 hr]
          show (st.button_state &&& not32 (winrun_button_to_mask ev.button)) &&&
            not32 (winrun_button_to_mask b) = s0
          rw [hb, land_not32_idem]
          exact h3
        · rw [send_mouse_core_fst_other st ev hp hr]
          exact h3
    have hrest := ih (send_mouse_core st ev).1 hin hok_rest hbs
    simpa [runMouse] using hrest

/-- C3 counterexample, two serialized runs on a Stream with the inputs
channel bound.  Run 1: PRESS LEFT, PRESS LEFT, RELEASE LEFT — the second
PRESS and the RELEASE are a PRESS-then-RELEASE of the same button with
nothing at all intervening, yet the tracked mask before that PRESS is 1
(LEFT already held) and after the RELEASE is 0.  Run 2: PRESS RIGHT,
PRESS LEFT, RELEASE RIGHT, RELEASE LEFT — between PRESS LEFT and RELEASE
LEFT no PRESS of another button intervenes (only a RELEASE), yet the mask
before the PRESS is 4 and after the RELEASE is 0. -/
theorem press_release_mask_counterexample :
    (runMouse (bindInputs freshStream)
      [{ event_type := 1, button := 1, x := 0, y := 0,
         scroll_delta_x := 0, scroll_delta_y := 0 }]).button_state = 1 ∧
    (runMouse (bindInputs freshStream)
      [{ event_type := 1, button := 1, x := 0, y := 0,
         scroll_delta_x := 0, scroll_delta_y := 0 },
       { event_type := 1, button := 1, x := 0, y := 0,
         scroll_delta_x := 0, scroll_delta_y := 0 },
       { event_type := 2, button := 1, x := 0, y := 0,
         scroll_delta_x := 0, scroll_delta_y := 0 }]).button_state = 0 ∧
    (1 : Nat) ≠ 0 ∧
    (runMouse (bindInputs freshStream)
      [{ event_type := 1, button := 2, x := 0, y := 0,
         scroll_delta_x := 0, scroll_delta_y := 0 }]).button_state = 4 ∧
    (runMouse (bindInputs freshStream)
      [{ event_type := 1, button := 2, x := 0, y := 0,
         scroll_delta_x := 0, scroll_delta_y := 0 },
       { event_type := 1, button := 1, x := 0, y := 0,
         scroll_delta_x := 0, scroll_delta_y := 0 },
       { event_type := 2, button := 2, x := 0, y := 0,
         scroll_delta_x := 0, scroll_delta_y := 0 },
       { event_type := 2, button := 1, x := 0, y := 0,
         scroll_delta_x := 0, scroll_delta_y := 0 }]).button_state = 0 ∧
    (4 : Nat) ≠ 0 := by decide

/-- C3 (amended): PRESS of a button b followed — after any events that are
not a PRESS or RELEASE of another button — by a RELEASE of b restores the
tracked button-state mask, provided b's mask bit is clear before the PRESS;
and the scenario PRESS LEFT, PRESS RIGHT, RELEASE LEFT leaves exactly
RIGHT's mask bit. -/
theorem press_release_restores_mask :
    (∀ (st : StreamState) (b : Nat) (mids : List MouseEvent) (e1 e2 : MouseEvent),
      st.inputs_bound = true →
      st.button_state < 2 ^ 32 →
      st.button_state &&& winrun_button_to_mask b = 0 →
      e1.event_type = WINRUN_MOUSE_EVENT_PRESS → e1.button = b →
      e2.event_type = WINRUN_MOUSE_EVENT_RELEASE → e2.button = b →
      (∀ ev ∈ mids, OnlyButton b ev) →
      (runMouse st (e1 :: (mids ++ [e2]))).button_state = st.button_state) ∧
    (runMouse (bindInputs freshStream)
      [{ event_type := 1, button := WINRUN_MOUSE_BUTTON_LEFT, x := 0, y := 0,
         scroll_delta_x := 0, scroll_delta_y := 0 },
       { event_type := 1, button := WINRUN_MOUSE_BUTTON_RIGHT, x := 0, y := 0,
         scroll_delta_x := 0, scroll_delta_y := 0 },
       { event_type := 2, button := WINRUN_MOUSE_BUTTON_LEFT, x := 0, y := 0,
         scroll_delta_x := 0, scroll_delta_y := 0 }]).button_state =
      SPICE_MOUSE_BUTTON_MASK_RIGHT := by
  constructor
  · intro st b mids e1 e2 h1 hlt hdisj hp1 hb1 hr2 hb2 hok
    have hstep1 : (send_mouse_core st e1).1 =
        { st with button_state := st.button_state ||| winrun_button_to_mask b } := by
      rw [send_mouse_core_press st e1 h1 hp1, hb1]
    have hstart : ({ st with button_state :=
          st.button_state ||| winrun_button_to_mask b } : StreamState).button_state &&&
        not32 (winrun_button_to_mask b) = st.button_state := by
      show (st.button_state ||| winrun_button_to_mask b) &&&
        not32 (winrun_button_to_mask b) = st.button_state
      rw [land_lor_not32 _ _ (winrun_button_to_mask_lt b)]
      exact land_not32_of_disjoint _ _ hlt hdisj
    have hinv := runMouse_inv b st.button_state mids
      { st with button_state := st.button_state ||| winrun_button_to_mask b }
      h1 hok hstart
    have hsplit : runMouse st (e1 :: (mids ++ [e2])) =
        runMouse (runMouse (send_mouse_core st e1).1 mids) [e2] := by
      simp [runMouse, List.foldl_append]
    rw [hsplit, hstep1]
    have hfin : ∀ s : StreamState, runMouse s [e2] = (send_mouse_core s e2).1 := by
      intro s
      simp [runMouse]
    rw [hfin]
    rw [send_mouse_core_release _ e2 hinv.1 hr2]
    show (runMouse { st with button_state :=
        st.button_state ||| winrun_button_to_mask b } mids).button_state &&&
      not32 (winrun_button_to_mask e2.button) = st.button_state
    rw [hb2]
    exact hinv.2
  · decide

/-- Witness for C3 (amended): PRESS LEFT, an intervening MOVE, RELEASE LEFT
on a fresh Stream with the inputs channel bound restores the empty mask. -/
theorem press_release_restores_mask_witness :
    (runMouse (bindInputs freshStream)
      [{ event_type := 1, button := 1, x := 0, y := 0,
         scroll_delta_x := 0, scroll_delta_y := 0 },
       { event_type := 0, button := 0, x := 5, y := 5,
         scroll_delta_x := 0, scroll_delta_y := 0 },
       { event_type := 2, button := 1, x := 0, y := 0,
         scroll_delta_x := 0, scroll_delta_y := 0 }]).button_state = 0 := by
  have h := press_release_restores_mask.1 (bindInputs freshStream) 1
    [{ event_type := 0, button := 0, x := 5, y := 5,
       scroll_delta_x := 0, scroll_delta_y := 0 }]
    { event_type := 1, button := 1, x := 0, y := 0,
      scroll_delta_x := 0, scroll_delta_y := 0 }
    { event_type := 2, button := 1, x := 0, y := 0,
      scroll_delta_x := 0, scroll_delta_y := 0 }
    rfl (by decide) (by decide) rfl rfl rfl rfl (by decide)
  exact h

end CSpiceBridge
